import Mathlib

/-!
# linkshieldbot: update polling and join-request arbitration

A shallow embedding of `handlers.go`, `main.go` (type `env`, `Verbosef`),
`internal/tg/types.go`, `internal/tg/bot.go` (the signatures of the remote
methods and the error type `APIError`) and `internal/tg/poller/poller.go`.

Modelling conventions.

* `int64` values are `Int`; the only arithmetic in the program
  (`UpdateID + 1` in `Poll`) is wrapped to 64 bits by `wrapInt64`.
* A Go `error` is a value of `GoError`, `nil` is `none`.  `errors.Is` walks the
  `Unwrap` chain, so the embedding keeps that chain: `fmt.Errorf` with the verb
  `%v` produces an error WITHOUT `Unwrap` (only the text is kept).
* The remote capability `*tg.Bot` is an oracle: one function per API method that
  gives the reply of the remote side.  Every remote call a handler makes is
  recorded, in order, in `Outcome.calls`; every line written through the logger
  (`e.Printf`, and `e.Verbosef` when verbose) is recorded in `Outcome.log`.
* Pointers that the program dereferences unconditionally (`Message.Chat`, the
  `*ChatMember` returned together with a nil error, the elements of the update
  slice) are modelled as values; optional payloads of an update
  (`Update.Message`, `Update.ChatJoinRequest`) are `Option`s.
* `context.Context` is modelled by what the program observes of it: the replies
  of the remote calls, and, in `Poll`, whether `ctx.Done()` is closed at the
  `select`.
-/

namespace LinkShield

/-! ## Errors -/

/-- Go error values that reach this program. -/
inductive GoError where
  /-- The sentinel `context.Canceled`. -/
  | canceled : GoError
  /-- The sentinel `context.DeadlineExceeded`. -/
  | deadlineExceeded : GoError
  /-- An error that only carries text (`errors.New`, `fmt.Errorf` without `%w`). -/
  | errorString (text : String) : GoError
  /-- A `*url.Error` as returned by `http.Client.Do`; `Unwrap` gives `err`. -/
  | urlError (op url : String) (err : GoError) : GoError
  /-- A `tg.APIError` built by `intoResult` when the reply has `ok = false`. -/
  | apiError (errorCode : Int) (description : String) : GoError
  deriving DecidableEq, Repr

/-- Decimal rendering `strconv.FormatInt(i, 10)`, also what `%d` prints. -/
def FormatInt (i : Int) : String :=
  match i with
  | Int.ofNat n => Nat.repr n
  | Int.negSucc n => "-" ++ Nat.repr (n + 1)

/-- The method `Error()` of each error value. -/
def GoError.Error : GoError → String
  | .canceled => "context canceled"
  | .deadlineExceeded => "context deadline exceeded"
  | .errorString text => text
  | .urlError op url err => op ++ " \"" ++ url ++ "\": " ++ err.Error
  | .apiError errorCode description =>
      "api error " ++ FormatInt errorCode ++ ": \"" ++ description ++ "\""

/-- The test `errors.Is(err, context.Canceled)`: compare, then follow `Unwrap`. -/
def isCanceled : GoError → Bool
  | .canceled => true
  | .urlError _ _ err => isCanceled err
  | _ => false

/-! ## Data model (`internal/tg/types.go`) -/

/-- The struct `tg.Chat`; the field `Type` is spelled `Type_` (`Type` is reserved). -/
structure Chat where
  ID : Int
  Type_ : String
  Title : String := ""
  deriving DecidableEq, Repr

structure User where
  ID : Int
  FirstName : String := ""
  LastName : String := ""
  Username : String := ""
  deriving DecidableEq, Repr

structure Message where
  MessageID : Int
  From : User
  Chat : Chat
  Text : String
  deriving DecidableEq, Repr

structure ChatJoinRequest where
  Chat : Chat
  From : User
  UserChatID : Int
  deriving DecidableEq, Repr

structure Update where
  UpdateID : Int
  Message : Option Message
  ChatJoinRequest : Option ChatJoinRequest
  deriving DecidableEq, Repr

structure ChatMember where
  Status : String
  User : Option User := none
  deriving DecidableEq, Repr

/-! ## The remote capability (`internal/tg/bot.go`) -/

/-- Replies of the remote side, one function per API method used by the handlers. -/
structure Bot where
  SendMessage : Int → String → String → Except GoError Message
  ApproveChatJoinRequest : Int → Int → Except GoError Bool
  DeclineChatJoinRequest : Int → Int → Except GoError Bool
  GetChatMember : Int → Int → Except GoError ChatMember

/-- A remote call, with its arguments. -/
inductive Call where
  | sendMessage (chatID : Int) (text : String) (parseMode : String) : Call
  | approveChatJoinRequest (chatID userID : Int) : Call
  | declineChatJoinRequest (chatID userID : Int) : Call
  | getChatMember (chatID userID : Int) : Call
  deriving DecidableEq, Repr

/-- Whether a call is one of the two mutating join decisions. -/
def Call.isApprove : Call → Bool
  | .approveChatJoinRequest _ _ => true
  | _ => false

def Call.isDecline : Call → Bool
  | .declineChatJoinRequest _ _ => true
  | _ => false

def Call.isGetChatMember : Call → Bool
  | .getChatMember _ _ => true
  | _ => false

/-! ## Environment (`main.go`, `config.go`) -/

/-- The fields of `env` the handlers read: `config.Verbose` and
`config.Directives` (a `map[string]int64`, here an association list). -/
structure env where
  Verbose : Bool
  Directives : List (String × Int)

/-- Lines written by `e.Verbosef`: the line when verbose, nothing otherwise. -/
def env.Verbosef (e : env) (line : String) : List String :=
  if e.Verbose then [line] else []

/-- What a handler did: the error it returned, the remote calls it made and the
lines it logged. -/
structure Outcome where
  err : Option GoError
  calls : List Call
  log : List String
  deriving DecidableEq, Repr

/-! ## Handlers (`handlers.go`) -/

/-- The text sent by `onCMDStart`. -/
def startText : String :=
  "Hey there! I\x27m a private instance of " ++
  "<a href=\"https://t.me/LinkShieldBot\">LinkShieldBot</a> - " ++
  "a bot to filter unwanted chat join requests.\n" ++
  "Check my channel out to learn more or run your own instance."

/-- Handles command /start. -/
def onCMDStart (bot : Bot) (msg : Message) (e : env) : Outcome :=
  let log := e.Verbosef ("Received /start command (user_id=" ++ FormatInt msg.Chat.ID ++ ")")
  let calls := [Call.sendMessage msg.Chat.ID startText "HTML"]
  match bot.SendMessage msg.Chat.ID startText "HTML" with
  | .error err => { err := some err, calls := calls, log := log }
  | .ok _ => { err := none, calls := calls, log := log }

/-- The `(chat_id=%d, user_id=%d)` suffix shared by the messages of `onJoinRequest`. -/
def ids (chatID userID : Int) : String :=
  "(chat_id=" ++ FormatInt chatID ++ ", user_id=" ++ FormatInt userID ++ ")"

/-- Handles chat join requests. -/
def onJoinRequest (bot : Bot) (req : ChatJoinRequest) (e : env) : Outcome :=
  match e.Directives.lookup (FormatInt req.Chat.ID) with
  | none =>
      { err := none, calls := [],
        log := e.Verbosef
          ("Received join request but directive is missing for chat, skipping.. (chat_id=" ++
            FormatInt req.Chat.ID ++ ")") }
  | some src =>
      let log₁ := e.Verbosef ("Received join request " ++ ids req.Chat.ID req.UserChatID)
      let calls₁ := [Call.getChatMember src req.UserChatID]
      match bot.GetChatMember src req.UserChatID with
      | .error err =>
          { err := some (.errorString
              ("failed to get chat member " ++ ids src req.UserChatID ++ ": " ++ err.Error)),
            calls := calls₁, log := log₁ }
      | .ok member =>
          if member.Status != "member" && member.Status != "creator" &&
              member.Status != "administrator" && member.Status != "restricted" then
            let calls₂ := calls₁ ++ [Call.declineChatJoinRequest req.Chat.ID req.UserChatID]
            match bot.DeclineChatJoinRequest req.Chat.ID req.UserChatID with
            | .error err =>
                { err := some (.errorString
                    ("failed to decline join request " ++ ids req.Chat.ID req.UserChatID ++
                      ": " ++ err.Error)),
                  calls := calls₂, log := log₁ }
            | .ok ok =>
                { err := none, calls := calls₂,
                  log := log₁ ++
                    (if !ok then
                      ["Couldn\x27t decline user " ++ FormatInt req.UserChatID ++ " in chat " ++
                        FormatInt req.Chat.ID ++ ", maybe already declined?"]
                     else []) ++
                    e.Verbosef ("Declined join request " ++ ids req.Chat.ID req.UserChatID) }
          else
            let calls₂ := calls₁ ++ [Call.approveChatJoinRequest req.Chat.ID req.UserChatID]
            match bot.ApproveChatJoinRequest req.Chat.ID req.UserChatID with
            | .error err =>
                { err := some (.errorString
                    ("failed to accept join request " ++ ids req.Chat.ID req.UserChatID ++
                      ": " ++ err.Error)),
                  calls := calls₂, log := log₁ }
            | .ok ok =>
                { err := none, calls := calls₂,
                  log := log₁ ++
                    (if !ok then
                      ["Couldn\x27t approve user " ++ FormatInt req.UserChatID ++ " in chat " ++
                        FormatInt req.Chat.ID ++ ", maybe already approved?"]
                     else []) ++
                    e.Verbosef ("Accepted join request " ++ ids req.Chat.ID req.UserChatID) }

/-- The outcome of a handler that does nothing and returns nil. -/
def Outcome.nil : Outcome := { err := none, calls := [], log := [] }

/-- Routes updates to their appropriate handler.  The `switch` takes the first
case whose condition holds and does not fall through: once `update.Message` is
non-nil the case `update.ChatJoinRequest != nil` is not looked at, and a
message that is not a private `/start` leads to the final `return nil`. -/
def routeUpdate (e : env) (bot : Bot) (update : Update) : Outcome :=
  match update.Message, update.ChatJoinRequest with
  | some msg, _ =>
      if msg.Chat.Type_ == "private" && msg.Text == "/start" then
        onCMDStart bot msg e
      else
        Outcome.nil
  | none, some req => onJoinRequest bot req e
  | none, none => Outcome.nil

/-- Handles errors that occur in handlers: the lines it prints. -/
def handleError (_e : env) (err : GoError) (fromPoller : Bool) : List String :=
  if isCanceled err then
    []
  else if fromPoller then
    ["Failed to fetch updates, retrying.. (" ++ err.Error ++ ")"]
  else
    ["Failed to process update: " ++ err.Error]

/-! ## The poller (`internal/tg/poller/poller.go`) -/

/-- Conversion of an integer to `int64` (two's complement wrap-around). -/
def wrapInt64 (x : Int) : Int :=
  (x + 2 ^ 63) % 2 ^ 64 - 2 ^ 63

/-- What one pass through the loop of `Poll` receives from outside. -/
structure Iteration where
  /-- At the `select`: `some err` when `ctx.Done()` is closed, `err` being `ctx.Err()`. -/
  ctxErr : Option GoError
  /-- The reply of `bot.GetUpdates(uctx, offset, 1)`, when the call is made. -/
  fetch : Except GoError (List Update)

/-- The observable actions of `Poll`. -/
inductive PollEvent where
  /-- The call `bot.GetUpdates(uctx, offset, timeout)`. -/
  | getUpdates (offset : Int) (timeout : Int) : PollEvent
  /-- The call `errorCb(err, fromPoller)`. -/
  | errorCb (err : GoError) (fromPoller : Bool) : PollEvent
  /-- The call `time.Sleep(seconds * time.Second)`. -/
  | sleep (seconds : Nat) : PollEvent
  /-- A goroutine is launched and calls `updateCb(hctx, bot, update)`. -/
  | updateCb (update : Update) : PollEvent
  deriving DecidableEq, Repr

/-- How a pass through the loop body ends. -/
inductive Control where
  /-- The loop goes on (`continue`, or the end of the body) with this offset. -/
  | next (offset : Int) : Control
  /-- The statement `return err`. -/
  | stop (err : GoError) : Control
  deriving DecidableEq, Repr

/-- The goroutine launched for one update: it calls `updateCb` and reports a
non-nil result through `errorCb(err, false)`. -/
def goroutine (updateCb : Update → Option GoError) (update : Update) : List PollEvent :=
  match updateCb update with
  | some err => [.updateCb update, .errorCb err false]
  | none => [.updateCb update]

/-- One pass through the body of the `for` loop of `Poll`, started with the
current `offset`.  The events of every goroutine are listed where it is
launched (the goroutines run concurrently with the loop; the loop reads nothing
they produce).  The deadlines set by `context.WithTimeout` and the deferred
`uctxStop` show only through the replies of the calls and are not events. -/
def pollIteration (updateCb : Update → Option GoError) (offset : Int) (it : Iteration) :
    List PollEvent × Control :=
  match it.ctxErr with
  | some err => ([], .stop err)
  | none =>
      match it.fetch with
      | .error err =>
          if isCanceled err then
            ([.getUpdates offset 1], .stop err)
          else
            ([.getUpdates offset 1, .errorCb err true, .sleep 1], .next offset)
      | .ok updates =>
          let count := updates.length
          if h : count = 0 then
            ([.getUpdates offset 1], .next offset)
          else
            (.getUpdates offset 1 :: updates.flatMap (goroutine updateCb),
              .next (wrapInt64 ((updates.get ⟨count - 1, by omega⟩).UpdateID + 1)))

/-- The state of `Poll` after a run: the variable `offset`, the events so far,
and the error `Poll` returned (`none` while the loop is still running). -/
structure PollState where
  offset : Int
  trace : List PollEvent
  result : Option GoError
  deriving DecidableEq, Repr

/-- The loop of `Poll` from a given offset, driven by the inputs of its
successive passes; it ends when a pass returns or when the inputs run out. -/
def pollLoop (updateCb : Update → Option GoError) : Int → List Iteration → PollState
  | offset, [] => { offset := offset, trace := [], result := none }
  | offset, it :: rest =>
      match pollIteration updateCb offset it with
      | (events, .stop err) => { offset := offset, trace := events, result := some err }
      | (events, .next offset') =>
          let s := pollLoop updateCb offset' rest
          { offset := s.offset, trace := events ++ s.trace, result := s.result }

/-- Poll polls and retrieves updates: the loop started with `var offset int64`,
that is 0. -/
def Poll (updateCb : Update → Option GoError) (script : List Iteration) : PollState :=
  pollLoop updateCb 0 script

/-- The inputs of a run in which every pass finds the context alive and the
fetch succeeds with the given batch. -/
def successes (batches : List (List Update)) : List Iteration :=
  batches.map (fun b => { ctxErr := none, fetch := .ok b })

/-- The identifiers of the updates of every successfully fetched batch of a
script, in order of arrival. -/
def streamIDs : List Iteration → List Int
  | [] => []
  | it :: rest =>
      match it.fetch with
      | .ok updates => updates.map (fun u => u.UpdateID) ++ streamIDs rest
      | .error _ => streamIDs rest

/-- The maximum `UpdateID` of a batch (0 for the empty batch). -/
def maxUpdateID : List Update → Int
  | [] => 0
  | u :: us => us.foldl (fun m v => max m v.UpdateID) u.UpdateID

/-- The offsets passed to `GetUpdates` in a trace, in order. -/
def fetchOffsets : List PollEvent → List Int
  | [] => []
  | .getUpdates offset _ :: evs => offset :: fetchOffsets evs
  | _ :: evs => fetchOffsets evs

/-- The updates for which a goroutine calling `updateCb` was launched, in order. -/
def launched : List PollEvent → List Update
  | [] => []
  | .updateCb update :: evs => update :: launched evs
  | _ :: evs => launched evs

/-- The arguments of the `errorCb` calls of a trace, in order. -/
def reported : List PollEvent → List (GoError × Bool)
  | [] => []
  | .errorCb err fromPoller :: evs => (err, fromPoller) :: reported evs
  | _ :: evs => reported evs

/-! ## Concrete inputs used in the examples -/

/-- The directive table of the examples: chat 100 is guarded by chat 200. -/
def exEnv : env := { Verbose := false, Directives := [("100", 200)] }

/-- A join request for chat 100 by user 42. -/
def exReq : ChatJoinRequest :=
  { Chat := { ID := 100, Type_ := "supergroup" }, From := { ID := 42 }, UserChatID := 42 }

/-- A join request for chat 999, which has no directive. -/
def exReqUnknown : ChatJoinRequest :=
  { Chat := { ID := 999, Type_ := "supergroup" }, From := { ID := 42 }, UserChatID := 42 }

/-- A message, as returned by a successful `SendMessage`. -/
def exSent : Message :=
  { MessageID := 1, From := { ID := 7 }, Chat := { ID := 42, Type_ := "private" }, Text := "" }

/-- A remote side on which every call succeeds and the membership query
reports the given status. -/
def botWithStatus (status : String) : Bot :=
  { SendMessage := fun _ _ _ => .ok exSent
    ApproveChatJoinRequest := fun _ _ => .ok true
    DeclineChatJoinRequest := fun _ _ => .ok true
    GetChatMember := fun _ _ => .ok { Status := status } }

/-- A remote side whose every call fails with the given error. -/
def botFailing (err : GoError) : Bot :=
  { SendMessage := fun _ _ _ => .error err
    ApproveChatJoinRequest := fun _ _ => .error err
    DeclineChatJoinRequest := fun _ _ => .error err
    GetChatMember := fun _ _ => .error err }

/-- A remote side on which the membership query reports the given status and
both join decisions report `false` (request already resolved). -/
def botResolved (status : String) : Bot :=
  { SendMessage := fun _ _ _ => .ok exSent
    ApproveChatJoinRequest := fun _ _ => .ok false
    DeclineChatJoinRequest := fun _ _ => .ok false
    GetChatMember := fun _ _ => .ok { Status := status } }

/-- The error of a request interrupted by the cancellation of its context, as
`apiRequest` returns it. -/
def exCanceled : GoError := .urlError "Post" "<URL hidden>" .canceled

/-- A message in a group that is not the command `/start`. -/
def exChatter : Message :=
  { MessageID := 9, From := { ID := 42 }, Chat := { ID := 100, Type_ := "supergroup" },
    Text := "hello" }

/-- An update whose `Message` and `ChatJoinRequest` fields are both set. -/
def exBoth : Update :=
  { UpdateID := 1, Message := some exChatter, ChatJoinRequest := some exReq }

/-- The command `/start` sent in a private chat. -/
def exStart : Message :=
  { MessageID := 3, From := { ID := 42 }, Chat := { ID := 42, Type_ := "private" },
    Text := "/start" }

/-- A callback that fails, with a rejection by the remote side, on the update
with identifier 7 and succeeds on every other update. -/
def exCallback (update : Update) : Option GoError :=
  if update.UpdateID = 7 then some (.apiError 400 "Bad Request") else none

/-- An update with the given identifier and no payload. -/
def upd (id : Int) : Update := { UpdateID := id, Message := none, ChatJoinRequest := none }

end LinkShield

/-! ## Theorems -/

namespace LinkShield

/-! ### The join-request handler -/

/-- What `onJoinRequest` does once the directive is found and the membership
query has answered: the decline branch. -/
theorem onJoinRequest_decline (bot : Bot) (req : ChatJoinRequest) (e : env) (src : Int)
    (member : ChatMember)
    (hdir : e.Directives.lookup (FormatInt req.Chat.ID) = some src)
    (hget : bot.GetChatMember src req.UserChatID = .ok member)
    (hst : member.Status ∉ ["member", "creator", "administrator", "restricted"]) :
    (onJoinRequest bot req e).calls =
        [.getChatMember src req.UserChatID,
         .declineChatJoinRequest req.Chat.ID req.UserChatID] ∧
      ((onJoinRequest bot req e).err.isSome ↔
        ∃ err, bot.DeclineChatJoinRequest req.Chat.ID req.UserChatID = .error err) := by
  simp only [List.mem_cons, List.mem_singleton, List.not_mem_nil, or_false, not_or] at hst
  obtain ⟨h1, h2, h3, h4⟩ := hst
  unfold onJoinRequest
  simp only [hdir, hget]
  have hc : (member.Status != "member" && member.Status != "creator" &&
      member.Status != "administrator" && member.Status != "restricted") = true := by
    simp [h1, h2, h3, h4]
  rw [if_pos hc]
  cases hd : bot.DeclineChatJoinRequest req.Chat.ID req.UserChatID <;> simp

/-- What `onJoinRequest` does once the directive is found and the membership
query has answered: the approve branch. -/
theorem onJoinRequest_approve (bot : Bot) (req : ChatJoinRequest) (e : env) (src : Int)
    (member : ChatMember)
    (hdir : e.Directives.lookup (FormatInt req.Chat.ID) = some src)
    (hget : bot.GetChatMember src req.UserChatID = .ok member)
    (hst : member.Status ∈ ["member", "creator", "administrator", "restricted"]) :
    (onJoinRequest bot req e).calls =
        [.getChatMember src req.UserChatID,
         .approveChatJoinRequest req.Chat.ID req.UserChatID] ∧
      ((onJoinRequest bot req e).err.isSome ↔
        ∃ err, bot.ApproveChatJoinRequest req.Chat.ID req.UserChatID = .error err) := by
  unfold onJoinRequest
  simp only [hdir, hget]
  have hc : ¬ (member.Status != "member" && member.Status != "creator" &&
      member.Status != "administrator" && member.Status != "restricted") = true := by
    simp only [List.mem_cons, List.mem_singleton, List.not_mem_nil, or_false] at hst
    rcases hst with h | h | h | h <;> simp [h]
  rw [if_neg hc]
  cases hd : bot.ApproveChatJoinRequest req.Chat.ID req.UserChatID <;> simp

/-- C1. Decline by default: when the chat of a join request has a directive and
the membership query succeeds with a status that is none of "member",
"creator", "administrator", "restricted" (the empty string, "left", "kicked"
and unknown strings included), `onJoinRequest` makes exactly one
`DeclineChatJoinRequest(req.Chat.ID, req.UserChatID)` call and no
`ApproveChatJoinRequest` call. -/
theorem C1_decline_by_default (bot : Bot) (req : ChatJoinRequest) (e : env) (src : Int)
    (member : ChatMember)
    (hdir : e.Directives.lookup (FormatInt req.Chat.ID) = some src)
    (hget : bot.GetChatMember src req.UserChatID = .ok member)
    (hst : member.Status ∉ ["member", "creator", "administrator", "restricted"]) :
    (onJoinRequest bot req e).calls.filter Call.isDecline =
        [.declineChatJoinRequest req.Chat.ID req.UserChatID] ∧
      (onJoinRequest bot req e).calls.filter Call.isApprove = [] := by
  rw [(onJoinRequest_decline bot req e src member hdir hget hst).1]
  simp [Call.isDecline, Call.isApprove]

/-- C1 at the example of the specification, and at the empty status: table
{100: 200}, request for chat 100 by user 42, status "left" (resp. ""). -/
theorem C1_decline_by_default_witness :
    (exEnv.Directives.lookup (FormatInt exReq.Chat.ID) = some 200 ∧
      (botWithStatus "left").GetChatMember 200 exReq.UserChatID = .ok { Status := "left" } ∧
      "left" ∉ ["member", "creator", "administrator", "restricted"]) ∧
    ((onJoinRequest (botWithStatus "left") exReq exEnv).calls.filter Call.isDecline =
        [.declineChatJoinRequest 100 42] ∧
      (onJoinRequest (botWithStatus "left") exReq exEnv).calls.filter Call.isApprove = []) ∧
    ((onJoinRequest (botWithStatus "") exReq exEnv).calls.filter Call.isDecline =
        [.declineChatJoinRequest 100 42] ∧
      (onJoinRequest (botWithStatus "") exReq exEnv).calls.filter Call.isApprove = []) :=
  ⟨⟨by decide, rfl, by decide⟩,
    C1_decline_by_default (botWithStatus "left") exReq exEnv 200 { Status := "left" }
      (by decide) rfl (by decide),
    C1_decline_by_default (botWithStatus "") exReq exEnv 200 { Status := "" }
      (by decide) rfl (by decide)⟩

/-- C2. Approve on membership: when the chat `c` of a join request maps to the
reference chat `r`, `onJoinRequest` first queries
`GetChatMember(r, req.UserChatID)`; when that query succeeds with a status among
"member", "creator", "administrator", "restricted" it makes exactly one
`ApproveChatJoinRequest(c, req.UserChatID)` call and no decline call; and
whatever the status, a request whose query succeeded makes exactly one mutating
call. -/
theorem C2_approve_on_membership (bot : Bot) (req : ChatJoinRequest) (e : env) (r : Int)
    (hdir : e.Directives.lookup (FormatInt req.Chat.ID) = some r) :
    (onJoinRequest bot req e).calls.head? = some (.getChatMember r req.UserChatID) ∧
      (onJoinRequest bot req e).calls.filter Call.isGetChatMember =
        [.getChatMember r req.UserChatID] ∧
      ∀ member, bot.GetChatMember r req.UserChatID = .ok member →
        (member.Status ∈ ["member", "creator", "administrator", "restricted"] →
          (onJoinRequest bot req e).calls.filter Call.isApprove =
              [.approveChatJoinRequest req.Chat.ID req.UserChatID] ∧
            (onJoinRequest bot req e).calls.filter Call.isDecline = []) ∧
        ((onJoinRequest bot req e).calls.filter
          (fun c => c.isApprove || c.isDecline)).length = 1 := by
  refine ⟨?_, ?_, ?_⟩
  · unfold onJoinRequest
    simp only [hdir]
    cases bot.GetChatMember r req.UserChatID with
    | error err => simp
    | ok member =>
        simp only []
        split
        · cases bot.DeclineChatJoinRequest req.Chat.ID req.UserChatID <;> simp
        · cases bot.ApproveChatJoinRequest req.Chat.ID req.UserChatID <;> simp
  · unfold onJoinRequest
    simp only [hdir]
    cases bot.GetChatMember r req.UserChatID with
    | error err => simp [Call.isGetChatMember]
    | ok member =>
        simp only []
        split
        · cases bot.DeclineChatJoinRequest req.Chat.ID req.UserChatID <;>
            simp [Call.isGetChatMember]
        · cases bot.ApproveChatJoinRequest req.Chat.ID req.UserChatID <;>
            simp [Call.isGetChatMember]
  · intro member hget
    constructor
    · intro hst
      rw [(onJoinRequest_approve bot req e r member hdir hget hst).1]
      simp [Call.isDecline, Call.isApprove]
    · by_cases hst : member.Status ∈ ["member", "creator", "administrator", "restricted"]
      · rw [(onJoinRequest_approve bot req e r member hdir hget hst).1]
        simp [Call.isDecline, Call.isApprove]
      · rw [(onJoinRequest_decline bot req e r member hdir hget hst).1]
        simp [Call.isDecline, Call.isApprove]

/-- C2 at the example of the specification: table {100: 200}, request for chat
100 by user 42, status "member": the calls are the query on (200, 42) and
approve(100, 42), and nothing else. -/
theorem C2_approve_on_membership_witness :
    exEnv.Directives.lookup (FormatInt exReq.Chat.ID) = some 200 ∧
      (onJoinRequest (botWithStatus "member") exReq exEnv).calls.head? =
        some (.getChatMember 200 42) ∧
      (onJoinRequest (botWithStatus "member") exReq exEnv).calls.filter Call.isApprove =
        [.approveChatJoinRequest 100 42] ∧
      (onJoinRequest (botWithStatus "member") exReq exEnv).calls.filter Call.isDecline = [] ∧
      ((onJoinRequest (botWithStatus "member") exReq exEnv).calls.filter
        (fun c => c.isApprove || c.isDecline)).length = 1 :=
  have h := C2_approve_on_membership (botWithStatus "member") exReq exEnv 200 (by decide)
  ⟨by decide, h.1, ((h.2.2 { Status := "member" } rfl).1 (by decide)).1,
    ((h.2.2 { Status := "member" } rfl).1 (by decide)).2, (h.2.2 { Status := "member" } rfl).2⟩

/-- C3. No-op on missing directive: when the decimal string of the chat id of a
join request is not a key of the directive table, `onJoinRequest` makes no
remote call at all (no `GetChatMember`, no approve, no decline) and returns
nil. -/
theorem C3_noop_on_missing_directive (bot : Bot) (req : ChatJoinRequest) (e : env)
    (hdir : e.Directives.lookup (FormatInt req.Chat.ID) = none) :
    (onJoinRequest bot req e).calls = [] ∧ (onJoinRequest bot req e).err = none := by
  unfold onJoinRequest
  simp [hdir]

/-- C3 at the example of the specification: a request for chat 999 with the
table {100: 200}. -/
theorem C3_noop_on_missing_directive_witness :
    exEnv.Directives.lookup (FormatInt exReqUnknown.Chat.ID) = none ∧
      (onJoinRequest (botWithStatus "member") exReqUnknown exEnv).calls = [] ∧
      (onJoinRequest (botWithStatus "member") exReqUnknown exEnv).err = none :=
  ⟨by decide, C3_noop_on_missing_directive (botWithStatus "member") exReqUnknown exEnv
    (by decide)⟩

/-- C4. Fail closed on a failed membership query: when the chat of a join
request has a directive and `GetChatMember` returns an error, `onJoinRequest`
returns a non-nil error and makes neither an approve nor a decline call (its
only call is the query). -/
theorem C4_fail_closed_on_query_failure (bot : Bot) (req : ChatJoinRequest) (e : env)
    (src : Int) (err : GoError)
    (hdir : e.Directives.lookup (FormatInt req.Chat.ID) = some src)
    (hget : bot.GetChatMember src req.UserChatID = .error err) :
    (onJoinRequest bot req e).err ≠ none ∧
      (onJoinRequest bot req e).calls.filter Call.isApprove = [] ∧
      (onJoinRequest bot req e).calls.filter Call.isDecline = [] ∧
      (onJoinRequest bot req e).calls = [.getChatMember src req.UserChatID] := by
  unfold onJoinRequest
  simp [hdir, hget, Call.isApprove, Call.isDecline]

/-- C4 at a concrete input: the query is rejected by the remote side. -/
theorem C4_fail_closed_on_query_failure_witness :
    (exEnv.Directives.lookup (FormatInt exReq.Chat.ID) = some 200 ∧
      (botFailing (.apiError 400 "Bad Request: user not found")).GetChatMember 200
        exReq.UserChatID = .error (.apiError 400 "Bad Request: user not found")) ∧
    ((onJoinRequest (botFailing (.apiError 400 "Bad Request: user not found")) exReq
        exEnv).err ≠ none ∧
      (onJoinRequest (botFailing (.apiError 400 "Bad Request: user not found")) exReq
        exEnv).calls.filter Call.isApprove = [] ∧
      (onJoinRequest (botFailing (.apiError 400 "Bad Request: user not found")) exReq
        exEnv).calls.filter Call.isDecline = [] ∧
      (onJoinRequest (botFailing (.apiError 400 "Bad Request: user not found")) exReq
        exEnv).calls = [.getChatMember 200 42]) :=
  ⟨⟨by decide, rfl⟩,
    C4_fail_closed_on_query_failure (botFailing (.apiError 400 "Bad Request: user not found"))
      exReq exEnv 200 (.apiError 400 "Bad Request: user not found") (by decide) rfl⟩

/-- C10. Idempotent outcome handling: for a join request that reaches the
decision step (directive found, membership query succeeded), if the decision
call made (decline for a status outside the four approved ones, approve
otherwise) returns `false` without error then `onJoinRequest` returns nil; and
`onJoinRequest` returns a non-nil error exactly when that call returns an
error. -/
theorem C10_idempotent_outcome (bot : Bot) (req : ChatJoinRequest) (e : env) (src : Int)
    (member : ChatMember)
    (hdir : e.Directives.lookup (FormatInt req.Chat.ID) = some src)
    (hget : bot.GetChatMember src req.UserChatID = .ok member) :
    (member.Status ∉ ["member", "creator", "administrator", "restricted"] →
        (bot.DeclineChatJoinRequest req.Chat.ID req.UserChatID = .ok false →
          (onJoinRequest bot req e).err = none) ∧
        ((onJoinRequest bot req e).err ≠ none ↔
          ∃ err, bot.DeclineChatJoinRequest req.Chat.ID req.UserChatID = .error err)) ∧
      (member.Status ∈ ["member", "creator", "administrator", "restricted"] →
        (bot.ApproveChatJoinRequest req.Chat.ID req.UserChatID = .ok false →
          (onJoinRequest bot req e).err = none) ∧
        ((onJoinRequest bot req e).err ≠ none ↔
          ∃ err, bot.ApproveChatJoinRequest req.Chat.ID req.UserChatID = .error err)) := by
  constructor
  · intro hst
    have h := (onJoinRequest_decline bot req e src member hdir hget hst).2
    rw [Option.isSome_iff_ne_none] at h
    refine ⟨fun hok => ?_, h⟩
    by_contra hne
    obtain ⟨err, herr⟩ := h.mp hne
    rw [hok] at herr
    cases herr
  · intro hst
    have h := (onJoinRequest_approve bot req e src member hdir hget hst).2
    rw [Option.isSome_iff_ne_none] at h
    refine ⟨fun hok => ?_, h⟩
    by_contra hne
    obtain ⟨err, herr⟩ := h.mp hne
    rw [hok] at herr
    cases herr

/-- C10 at concrete inputs: the remote side answers `false` to the decline of a
user who left, and to the approval of a member; both times the handler returns
nil. -/
theorem C10_idempotent_outcome_witness :
    (exEnv.Directives.lookup (FormatInt exReq.Chat.ID) = some 200 ∧
      (botResolved "left").DeclineChatJoinRequest 100 42 = .ok false ∧
      (botResolved "member").ApproveChatJoinRequest 100 42 = .ok false) ∧
    (onJoinRequest (botResolved "left") exReq exEnv).err = none ∧
    (onJoinRequest (botResolved "member") exReq exEnv).err = none :=
  ⟨⟨by decide, rfl, rfl⟩,
    ((C10_idempotent_outcome (botResolved "left") exReq exEnv 200 { Status := "left" }
      (by decide) rfl).1 (by decide)).1 rfl,
    ((C10_idempotent_outcome (botResolved "member") exReq exEnv 200 { Status := "member" }
      (by decide) rfl).2 (by decide)).1 rfl⟩

/-! ### The error sink and the router -/

/-- Every error `onJoinRequest` returns was built by `fmt.Errorf` with `%v`: it
has no `Unwrap`, so `errors.Is(err, context.Canceled)` is false for it. -/
theorem onJoinRequest_err_not_canceled (bot : Bot) (req : ChatJoinRequest) (e : env)
    (err : GoError) (h : (onJoinRequest bot req e).err = some err) :
    isCanceled err = false := by
  unfold onJoinRequest at h
  split at h
  · simp at h
  · simp only [] at h
    split at h
    · simp only [Option.some.injEq] at h
      subst h
      rfl
    · split at h
      · split at h
        · simp only [Option.some.injEq] at h
          subst h
          rfl
        · simp at h
      · split at h
        · simp only [Option.some.injEq] at h
          subst h
          rfl
        · simp at h

/-- The error `onCMDStart` returns is the error of `SendMessage`, unchanged; when
it is a cancellation, `handleError` prints nothing. -/
theorem onCMDStart_cancellation_silent (bot : Bot) (msg : Message) (e : env) (err : GoError)
    (hsend : bot.SendMessage msg.Chat.ID startText "HTML" = .error err)
    (hc : isCanceled err = true) :
    (onCMDStart bot msg e).err = some err ∧ handleError e err false = [] := by
  unfold onCMDStart handleError
  simp [hsend, hc]

/-- C5, evaluated where it fails: table {100: 200}, join request for chat 100 by
user 42, and `GetChatMember` interrupted by the cancellation of the context.
The error of the call is a cancellation, the error `onJoinRequest` returns is
not (its text was formatted with `%v`), and `handleError` with
`fromPoller = false` prints a failure line for it. -/
theorem C5_cancellation_logged_as_failure :
    (botFailing exCanceled).GetChatMember 200 42 = .error exCanceled ∧
      isCanceled exCanceled = true ∧
      (onJoinRequest (botFailing exCanceled) exReq exEnv).err =
        some (.errorString ("failed to get chat member (chat_id=200, user_id=42): " ++
          "Post \"<URL hidden>\": context canceled")) ∧
      handleError exEnv
          (.errorString ("failed to get chat member (chat_id=200, user_id=42): " ++
            "Post \"<URL hidden>\": context canceled")) false =
        ["Failed to process update: failed to get chat member (chat_id=200, user_id=42): " ++
          "Post \"<URL hidden>\": context canceled"] := by
  refine ⟨rfl, rfl, ?_, ?_⟩ <;> decide

/-- The cases of the `switch` of `routeUpdate`, for an arbitrary value of the
struct `tg.Update`: a `Message` that is a private `/start` goes to
`onCMDStart`, any other `Message` ends in `return nil`; without a `Message`, a
`ChatJoinRequest` goes to `onJoinRequest`, and an update with neither payload
ends in `return nil`. -/
theorem routeUpdate_cases (e : env) (bot : Bot) (update : Update) :
    (∀ msg, update.Message = some msg →
        (msg.Chat.Type_ = "private" ∧ msg.Text = "/start" →
          routeUpdate e bot update = onCMDStart bot msg e) ∧
        (¬ (msg.Chat.Type_ = "private" ∧ msg.Text = "/start") →
          routeUpdate e bot update = Outcome.nil)) ∧
      (update.Message = none →
        (∀ req, update.ChatJoinRequest = some req →
          routeUpdate e bot update = onJoinRequest bot req e) ∧
        (update.ChatJoinRequest = none → routeUpdate e bot update = Outcome.nil)) := by
  constructor
  · intro msg hmsg
    unfold routeUpdate
    simp only [hmsg]
    constructor
    · rintro ⟨h1, h2⟩
      simp [h1, h2]
    · intro h
      have : ¬ ((msg.Chat.Type_ == "private" && msg.Text == "/start") = true) := by
        simpa using h
      rw [if_neg this]
  · intro hnone
    unfold routeUpdate
    simp only [hnone]
    constructor
    · intro req hreq
      simp only [hreq]
    · intro hreq
      simp only [hreq]

/-- A value of the struct `tg.Update` with both payloads set, which the update
stream does not deliver (an update is exactly one of its variants), is handled
by its `Message` alone: here the message is not a private `/start` and no
handler runs. -/
theorem routeUpdate_message_takes_precedence :
    exBoth.Message = some exChatter ∧
      exBoth.ChatJoinRequest = some exReq ∧
      routeUpdate exEnv (botWithStatus "member") exBoth = Outcome.nil := by
  refine ⟨rfl, rfl, by decide⟩

/-- C7. Router classification: for every update of the stream, that is every
update that carries at most one payload, `routeUpdate` runs `onCMDStart` if the
update carries a `Message` whose chat type is "private" and whose text is
exactly "/start"; otherwise, if the update carries a `ChatJoinRequest`, it runs
`onJoinRequest` on it; otherwise it runs no handler and returns nil.  The
outcome is always that of at most one handler. -/
theorem C7_router_classification (e : env) (bot : Bot) (update : Update)
    (hone : update.Message = none ∨ update.ChatJoinRequest = none) :
    (∀ msg, update.Message = some msg →
        msg.Chat.Type_ = "private" ∧ msg.Text = "/start" →
        routeUpdate e bot update = onCMDStart bot msg e) ∧
      ((¬ ∃ msg, update.Message = some msg ∧
          msg.Chat.Type_ = "private" ∧ msg.Text = "/start") →
        (∀ req, update.ChatJoinRequest = some req →
          routeUpdate e bot update = onJoinRequest bot req e) ∧
        (update.ChatJoinRequest = none → routeUpdate e bot update = Outcome.nil)) := by
  have hcases := routeUpdate_cases e bot update
  refine ⟨fun msg hmsg hstart => (hcases.1 msg hmsg).1 hstart, ?_⟩
  intro hnot
  cases hm : update.Message with
  | none => exact hcases.2 hm
  | some msg =>
      have hreq : update.ChatJoinRequest = none := by
        rcases hone with h | h
        · rw [hm] at h
          cases h
        · exact h
      have hplain : ¬ (msg.Chat.Type_ = "private" ∧ msg.Text = "/start") :=
        fun h => hnot ⟨msg, hm, h⟩
      refine ⟨fun req hsome => ?_, fun _ => (hcases.1 msg hm).2 hplain⟩
      rw [hreq] at hsome
      cases hsome

/-- C7 at concrete updates: a private `/start`, a join request alone, a group
message alone, an update with no payload. -/
theorem C7_router_classification_witness :
    routeUpdate exEnv (botWithStatus "member")
        { UpdateID := 1, Message := some exStart, ChatJoinRequest := none } =
        onCMDStart (botWithStatus "member") exStart exEnv ∧
      routeUpdate exEnv (botWithStatus "member")
        { UpdateID := 2, Message := none, ChatJoinRequest := some exReq } =
        onJoinRequest (botWithStatus "member") exReq exEnv ∧
      routeUpdate exEnv (botWithStatus "member")
        { UpdateID := 3, Message := some exChatter, ChatJoinRequest := none } = Outcome.nil ∧
      routeUpdate exEnv (botWithStatus "member") (upd 4) = Outcome.nil :=
  ⟨(C7_router_classification exEnv (botWithStatus "member")
      { UpdateID := 1, Message := some exStart, ChatJoinRequest := none } (Or.inr rfl)).1
      exStart rfl (by decide),
    ((C7_router_classification exEnv (botWithStatus "member")
      { UpdateID := 2, Message := none, ChatJoinRequest := some exReq } (Or.inl rfl)).2
      (by rintro ⟨msg, hmsg, _⟩; cases hmsg)).1 exReq rfl,
    ((C7_router_classification exEnv (botWithStatus "member")
      { UpdateID := 3, Message := some exChatter, ChatJoinRequest := none } (Or.inr rfl)).2
      (by
        rintro ⟨msg, hmsg, hpriv, _⟩
        cases hmsg
        exact absurd hpriv (by decide))).2 rfl,
    ((C7_router_classification exEnv (botWithStatus "member") (upd 4) (Or.inl rfl)).2
      (by rintro ⟨msg, hmsg, _⟩; cases hmsg)).2 rfl⟩

/-! ### The poller: delivery and fetch failures -/

theorem launched_append (xs ys : List PollEvent) :
    launched (xs ++ ys) = launched xs ++ launched ys := by
  induction xs with
  | nil => rfl
  | cons x xs ih => cases x <;> simp [launched, ih]

theorem reported_append (xs ys : List PollEvent) :
    reported (xs ++ ys) = reported xs ++ reported ys := by
  induction xs with
  | nil => rfl
  | cons x xs ih => cases x <;> simp [reported, ih]

/-- The goroutines of a batch call `updateCb` once per update, in order. -/
theorem launched_goroutines (updateCb : Update → Option GoError) (updates : List Update) :
    launched (updates.flatMap (goroutine updateCb)) = updates := by
  induction updates with
  | nil => rfl
  | cons u us ih =>
      rw [List.flatMap_cons, launched_append, ih]
      unfold goroutine
      cases updateCb u <;> simp [launched]

/-- The goroutines of a batch call `errorCb(err, false)` once per update whose
callback returned an error `err`, and make no other `errorCb` call. -/
theorem reported_goroutines (updateCb : Update → Option GoError) (updates : List Update) :
    reported (updates.flatMap (goroutine updateCb)) =
      updates.filterMap (fun u => (updateCb u).map (fun err => (err, false))) := by
  induction updates with
  | nil => rfl
  | cons u us ih =>
      rw [List.flatMap_cons, reported_append, ih]
      unfold goroutine
      cases h : updateCb u <;> simp [reported, List.filterMap_cons, h]

/-- How a pass of the loop ends does not depend on the callback. -/
theorem pollIteration_control (updateCb updateCb' : Update → Option GoError) (offset : Int)
    (it : Iteration) :
    (pollIteration updateCb offset it).2 = (pollIteration updateCb' offset it).2 := by
  unfold pollIteration
  split
  · rfl
  · split
    · split <;> rfl
    · simp only []
      split <;> rfl

/-- A pass that finds the context alive starts by calling `GetUpdates` with the
current offset and timeout 1. -/
theorem pollIteration_fetches (updateCb : Update → Option GoError) (offset : Int)
    (reply : Except GoError (List Update)) :
    ∃ evs, (pollIteration updateCb offset { ctxErr := none, fetch := reply }).1 =
      .getUpdates offset 1 :: evs := by
  unfold pollIteration
  simp only []
  cases reply with
  | error err =>
      simp only []
      split
      · exact ⟨_, rfl⟩
      · exact ⟨_, rfl⟩
  | ok updates =>
      simp only []
      split
      · exact ⟨_, rfl⟩
      · exact ⟨_, rfl⟩

/-- The trace of a run starts with the events of its first pass. -/
theorem pollLoop_trace_cons (updateCb : Update → Option GoError) (offset : Int)
    (it : Iteration) (rest : List Iteration) :
    ∃ evs, (pollLoop updateCb offset (it :: rest)).trace =
      (pollIteration updateCb offset it).1 ++ evs := by
  rw [pollLoop]
  cases h : pollIteration updateCb offset it with
  | mk events ctl =>
      cases ctl with
      | next o => exact ⟨_, rfl⟩
      | stop err => exact ⟨[], by simp⟩

/-- One pass whose fetch succeeds with a batch: a goroutine calling `updateCb` is
launched once for each update of the batch, `errorCb(err, false)` is called once
for each update whose callback returned `err`, and the pass goes on with an
offset that is the same for every callback. -/
theorem pollIteration_delivery (updateCb : Update → Option GoError) (offset : Int)
    (updates : List Update) :
    launched (pollIteration updateCb offset { ctxErr := none, fetch := .ok updates }).1 =
        updates ∧
      reported (pollIteration updateCb offset { ctxErr := none, fetch := .ok updates }).1 =
        updates.filterMap (fun u => (updateCb u).map (fun err => (err, false))) ∧
      (∀ u, goroutine updateCb u =
        .updateCb u :: (match updateCb u with
          | some err => [.errorCb err false]
          | none => [])) ∧
      (∃ offset',
        ∀ updateCb' : Update → Option GoError,
          (pollIteration updateCb' offset { ctxErr := none, fetch := .ok updates }).2 =
            .next offset') := by
  refine ⟨?_, ?_, ?_, ?_⟩
  · unfold pollIteration
    simp only []
    split
    · rename_i h
      have : updates = [] := List.length_eq_zero.mp h
      subst this
      rfl
    · simp only [launched]
      exact launched_goroutines updateCb updates
  · unfold pollIteration
    simp only []
    split
    · rename_i h
      have : updates = [] := List.length_eq_zero.mp h
      subst this
      rfl
    · simp only [reported]
      exact reported_goroutines updateCb updates
  · intro u
    unfold goroutine
    cases updateCb u <;> rfl
  · by_cases h : updates.length = 0
    · refine ⟨offset, fun cb => ?_⟩
      unfold pollIteration
      simp [h]
    · refine ⟨wrapInt64 ((updates.get ⟨updates.length - 1, by omega⟩).UpdateID + 1),
        fun cb => ?_⟩
      unfold pollIteration
      simp [h]

/-- C9. Fetch failure in `Poll`: when `GetUpdates` returns an error that is a
cancellation, `Poll` returns that error, having called neither `errorCb` nor
`updateCb`; when the error is not a cancellation, `Poll` calls
`errorCb(err, true)` exactly once, launches no dispatch, keeps the offset and
goes on with the rest of the run from the same offset, so that the next fetch
is made with the same offset. -/
theorem C9_fetch_failure (updateCb : Update → Option GoError) (offset : Int) (err : GoError)
    (rest : List Iteration) :
    (isCanceled err = true →
        pollLoop updateCb offset ({ ctxErr := none, fetch := .error err } :: rest) =
          { offset := offset, trace := [.getUpdates offset 1], result := some err }) ∧
      (isCanceled err = false →
        pollIteration updateCb offset { ctxErr := none, fetch := .error err } =
            ([.getUpdates offset 1, .errorCb err true, .sleep 1], .next offset) ∧
          pollLoop updateCb offset ({ ctxErr := none, fetch := .error err } :: rest) =
            { offset := (pollLoop updateCb offset rest).offset,
              trace := [.getUpdates offset 1, .errorCb err true, .sleep 1] ++
                (pollLoop updateCb offset rest).trace,
              result := (pollLoop updateCb offset rest).result } ∧
          ∀ reply rest', rest = { ctxErr := none, fetch := reply } :: rest' →
            (fetchOffsets
              (pollLoop updateCb offset
                ({ ctxErr := none, fetch := .error err } :: rest)).trace).take 2 =
              [offset, offset]) := by
  constructor
  · intro hc
    simp [pollLoop, pollIteration, hc]
  · intro hc
    have hit : pollIteration updateCb offset { ctxErr := none, fetch := .error err } =
        ([.getUpdates offset 1, .errorCb err true, .sleep 1], .next offset) := by
      simp [pollIteration, hc]
    have hloop : pollLoop updateCb offset ({ ctxErr := none, fetch := .error err } :: rest) =
        { offset := (pollLoop updateCb offset rest).offset,
          trace := [.getUpdates offset 1, .errorCb err true, .sleep 1] ++
            (pollLoop updateCb offset rest).trace,
          result := (pollLoop updateCb offset rest).result } := by
      rw [pollLoop, hit]
    refine ⟨hit, hloop, ?_⟩
    intro reply rest' hrest
    rw [hloop, hrest]
    have hfirst : ∀ evs, fetchOffsets
        ([PollEvent.getUpdates offset 1, .errorCb err true, .sleep 1] ++ evs) =
          offset :: fetchOffsets evs := by
      intro evs
      simp [fetchOffsets]
    rw [hfirst]
    have hnext : ∃ evs, (pollLoop updateCb offset
        ({ ctxErr := none, fetch := reply } :: rest')).trace =
          .getUpdates offset 1 :: evs := by
      obtain ⟨evs₁, h₁⟩ := pollIteration_fetches updateCb offset reply
      obtain ⟨evs₂, h₂⟩ := pollLoop_trace_cons updateCb offset
        { ctxErr := none, fetch := reply } rest'
      exact ⟨evs₁ ++ evs₂, by rw [h₂, h₁]; rfl⟩
    obtain ⟨evs, hevs⟩ := hnext
    rw [hevs]
    simp [fetchOffsets]

/-- C9 at concrete runs: a fetch interrupted by cancellation ends `Poll` with
that error and no `errorCb`; a fetch rejected by the remote side is reported
once and the next fetch repeats the offset 0. -/
theorem C9_fetch_failure_witness :
    (isCanceled exCanceled = true ∧ isCanceled (.apiError 502 "Bad Gateway") = false) ∧
    pollLoop (fun _ => none) 0 [{ ctxErr := none, fetch := .error exCanceled }] =
      { offset := 0, trace := [.getUpdates 0 1], result := some exCanceled } ∧
    pollIteration (fun _ => none) 0
        { ctxErr := none, fetch := .error (.apiError 502 "Bad Gateway") } =
      ([.getUpdates 0 1, .errorCb (.apiError 502 "Bad Gateway") true, .sleep 1], .next 0) ∧
    (fetchOffsets (pollLoop (fun _ => none) 0
        [{ ctxErr := none, fetch := .error (.apiError 502 "Bad Gateway") },
         { ctxErr := none, fetch := .ok [upd 7] }]).trace).take 2 = [0, 0] :=
  ⟨⟨rfl, rfl⟩,
    (C9_fetch_failure (fun _ => none) 0 exCanceled []).1 rfl,
    ((C9_fetch_failure (fun _ => none) 0 (.apiError 502 "Bad Gateway") []).2 rfl).1,
    ((C9_fetch_failure (fun _ => none) 0 (.apiError 502 "Bad Gateway")
      [{ ctxErr := none, fetch := .ok [upd 7] }]).2 rfl).2.2 (.ok [upd 7]) [] rfl⟩

/-! ### The poller: the offset -/

/-- Wrapping leaves an `int64` value unchanged. -/
theorem wrapInt64_of_range (x : Int) (hlo : -(2 ^ 63) ≤ x) (hhi : x < 2 ^ 63) :
    wrapInt64 x = x := by
  unfold wrapInt64
  omega

theorem streamIDs_append (xs ys : List Iteration) :
    streamIDs (xs ++ ys) = streamIDs xs ++ streamIDs ys := by
  induction xs with
  | nil => rfl
  | cons it rest ih =>
      simp only [List.cons_append, streamIDs]
      cases it.fetch <;> simp [ih]

/-- A pass whose fetch succeeds with a non-empty batch goes on with one plus the
`UpdateID` of the LAST update of the batch, converted to `int64`. -/
theorem pollIteration_batch (updateCb : Update → Option GoError) (offset : Int)
    (updates : List Update) (h : updates ≠ []) :
    (pollIteration updateCb offset { ctxErr := none, fetch := .ok updates }).2 =
      .next (wrapInt64 ((updates.getLast h).UpdateID + 1)) := by
  have hlen : ¬ updates.length = 0 := fun h0 => h (List.length_eq_zero.mp h0)
  unfold pollIteration
  simp only [hlen, dite_false]
  rw [List.getLast_eq_getElem]
  rfl

/-- The offset a pass goes on with is the one it started with, or one plus the
identifier of an update it fetched. -/
theorem pollIteration_next (updateCb : Update → Option GoError) (offset offset' : Int)
    (it : Iteration) (h : (pollIteration updateCb offset it).2 = .next offset') :
    offset' = offset ∨ ∃ id ∈ streamIDs [it], offset' = wrapInt64 (id + 1) := by
  unfold pollIteration at h
  split at h
  · cases h
  · split at h
    · split at h
      · cases h
      · left
        cases h
        rfl
    · rename_i updates hfetch
      simp only [] at h
      split at h
      · left
        cases h
        rfl
      · right
        cases h
        refine ⟨_, ?_, rfl⟩
        simp only [streamIDs, hfetch, List.append_nil, List.mem_map]
        exact ⟨_, List.get_mem _ _ _, rfl⟩

/-- The offset at the end of a run is the one it started with, or one plus the
identifier of an update it fetched. -/
theorem pollLoop_offset_reach (updateCb : Update → Option GoError) (script : List Iteration) :
    ∀ offset, (pollLoop updateCb offset script).offset = offset ∨
      ∃ id ∈ streamIDs script, (pollLoop updateCb offset script).offset = wrapInt64 (id + 1) := by
  induction script with
  | nil => intro offset; left; rfl
  | cons it rest ih =>
      intro offset
      rw [pollLoop]
      cases hit : pollIteration updateCb offset it with
      | mk events ctl =>
          cases ctl with
          | stop err => left; rfl
          | next o =>
              simp only []
              have hstep := pollIteration_next updateCb offset o it (by rw [hit])
              have hsplit : streamIDs (it :: rest) = streamIDs [it] ++ streamIDs rest :=
                streamIDs_append [it] rest
              rcases ih o with h | ⟨id, hid, h⟩
              · rw [h]
                rcases hstep with h1 | ⟨id, hid, h1⟩
                · left; exact h1
                · right
                  exact ⟨id, by rw [hsplit]; exact List.mem_append_left _ hid, h1⟩
              · right
                exact ⟨id, by rw [hsplit]; exact List.mem_append_right _ hid, h⟩

/-- The offset after a run extended by further passes: unchanged when `Poll`
had already returned, otherwise that of the further passes started from the
offset reached. -/
theorem pollLoop_offset_append (updateCb : Update → Option GoError) (pre suf : List Iteration) :
    ∀ offset, (pollLoop updateCb offset (pre ++ suf)).offset =
      match (pollLoop updateCb offset pre).result with
      | some _ => (pollLoop updateCb offset pre).offset
      | none => (pollLoop updateCb (pollLoop updateCb offset pre).offset suf).offset := by
  induction pre with
  | nil => intro offset; rfl
  | cons it rest ih =>
      intro offset
      rw [List.cons_append, pollLoop, pollLoop]
      cases hit : pollIteration updateCb offset it with
      | mk events ctl =>
          cases ctl with
          | stop err => rfl
          | next o => exact ih o

/-- In a batch whose identifiers are strictly increasing, the last update
carries the maximum. -/
theorem foldl_max_sorted (us : List Update) :
    ∀ a : Int, (a :: us.map (fun u => u.UpdateID)).Sorted (· < ·) →
      us.foldl (fun m v => max m v.UpdateID) a =
        ((us.getLast?).map (fun u => u.UpdateID)).getD a := by
  induction us with
  | nil => intro a _; rfl
  | cons u us ih =>
      intro a hs
      have hau : a < u.UpdateID := by
        have := List.rel_of_sorted_cons hs u.UpdateID (by simp)
        exact this
      have hs2 : (u.UpdateID :: us.map (fun u => u.UpdateID)).Sorted (· < ·) := by
        have := List.Sorted.of_cons hs
        simpa using this
      rw [List.foldl_cons, max_eq_right (le_of_lt hau), ih _ hs2]
      cases us with
      | nil => rfl
      | cons v vs =>
          rw [List.getLast?_cons_cons, List.getLast?_eq_getLast _ (List.cons_ne_nil v vs)]
          rfl

theorem maxUpdateID_sorted (updates : List Update) (h : updates ≠ [])
    (hs : (updates.map (fun u => u.UpdateID)).Sorted (· < ·)) :
    maxUpdateID updates = (updates.getLast h).UpdateID := by
  cases updates with
  | nil => exact absurd rfl h
  | cons u us =>
      simp only [maxUpdateID]
      rw [foldl_max_sorted us u.UpdateID (by simpa using hs)]
      cases us with
      | nil => rfl
      | cons v vs =>
          rw [List.getLast_cons (by simp), List.getLast?_eq_getLast _ (by simp)]
          rfl

/-- C6 as stated fails. After the successful fetch of the batch with identifiers
5, 3 (in this order) the offset is 4, not one plus the maximum 5; and in the run
of two successful fetches with batches [5] and [3] the offset goes from 6 down
to 4. -/
theorem C6_cursor_counterexample :
    (Poll (fun _ => none) (successes [[upd 5, upd 3]])).offset = 4 ∧
      (Poll (fun _ => none) (successes [[upd 5, upd 3]])).offset ≠
        1 + maxUpdateID [upd 5, upd 3] ∧
      (Poll (fun _ => none) (successes [[upd 5]])).offset = 6 ∧
      (Poll (fun _ => none) (successes [[upd 5], [upd 3]])).offset = 4 ∧
      ¬ (Poll (fun _ => none) (successes [[upd 5]])).offset ≤
        (Poll (fun _ => none) (successes [[upd 5], [upd 3]])).offset := by
  refine ⟨by decide, by decide, by decide, by decide, by decide⟩

/-- C6, amended. The offset of `Poll` starts at 0; a pass that fetches a
non-empty batch sets it to one plus the `UpdateID` of the LAST update of the
batch (converted to `int64`); a pass that fetches an empty batch, whose fetch
fails, or that returns, leaves it unchanged.  When the identifiers of the
updates fetched during the run, in order of arrival, are strictly increasing,
non-negative and below 2^63 - 1, the offset never decreases from one pass to the
next, and after a non-empty batch it equals one plus the maximum `UpdateID` of
that batch. -/
theorem C6_cursor_monotonicity (updateCb : Update → Option GoError) (pre : List Iteration)
    (it : Iteration) :
    (Poll updateCb []).offset = 0 ∧
      (∀ updates (h : updates ≠ []), (Poll updateCb pre).result = none →
        (Poll updateCb (pre ++ [{ ctxErr := none, fetch := .ok updates }])).offset =
          wrapInt64 ((updates.getLast h).UpdateID + 1)) ∧
      (∀ ctx, (Poll updateCb (pre ++ [{ ctxErr := ctx, fetch := .ok [] }])).offset =
        (Poll updateCb pre).offset) ∧
      (∀ ctx err, (Poll updateCb (pre ++ [{ ctxErr := ctx, fetch := .error err }])).offset =
        (Poll updateCb pre).offset) ∧
      ((streamIDs (pre ++ [it])).Sorted (· < ·) →
        (∀ id ∈ streamIDs (pre ++ [it]), 0 ≤ id ∧ id < 2 ^ 63 - 1) →
        (Poll updateCb pre).offset ≤ (Poll updateCb (pre ++ [it])).offset ∧
          ∀ updates, updates ≠ [] → it = { ctxErr := none, fetch := .ok updates } →
            (Poll updateCb pre).result = none →
            (Poll updateCb (pre ++ [it])).offset = 1 + maxUpdateID updates) := by
  have hlast : ∀ updates (h : updates ≠ []), (Poll updateCb pre).result = none →
      (Poll updateCb (pre ++ [{ ctxErr := none, fetch := .ok updates }])).offset =
        wrapInt64 ((updates.getLast h).UpdateID + 1) := by
    intro updates h hrun
    unfold Poll at hrun ⊢
    rw [pollLoop_offset_append, hrun]
    simp only []
    rw [pollLoop]
    have hb := pollIteration_batch updateCb (pollLoop updateCb 0 pre).offset updates h
    cases hit : pollIteration updateCb (pollLoop updateCb 0 pre).offset
        { ctxErr := none, fetch := .ok updates } with
    | mk events ctl =>
        rw [hit] at hb
        simp only [] at hb
        subst hb
        rfl
  have hkeep : ∀ (j : Iteration),
      (∀ o, (pollIteration updateCb o j).2 ≠ .next o → ∃ err, (pollIteration updateCb o j).2 =
        .stop err) →
      (Poll updateCb (pre ++ [j])).offset = (Poll updateCb pre).offset := by
    intro j hj
    unfold Poll
    rw [pollLoop_offset_append]
    cases hrun : (pollLoop updateCb 0 pre).result with
    | some err => rfl
    | none =>
        simp only []
        rw [pollLoop]
        cases hit : pollIteration updateCb (pollLoop updateCb 0 pre).offset j with
        | mk events ctl =>
            cases ctl with
            | stop err => rfl
            | next o =>
                simp only [pollLoop]
                by_contra hne
                have := hj (pollLoop updateCb 0 pre).offset (by
                  rw [hit]
                  intro heq
                  cases heq
                  exact hne rfl)
                obtain ⟨err, herr⟩ := this
                rw [hit] at herr
                cases herr
  refine ⟨rfl, hlast, ?_, ?_, ?_⟩
  · intro ctx
    apply hkeep
    intro o hne
    unfold pollIteration at hne ⊢
    cases ctx with
    | some err => exact ⟨err, rfl⟩
    | none => simp at hne
  · intro ctx err
    apply hkeep
    intro o hne
    unfold pollIteration at hne ⊢
    cases ctx with
    | some e2 => exact ⟨e2, rfl⟩
    | none =>
        simp only [] at hne ⊢
        split
        · exact ⟨err, rfl⟩
        · rename_i hc
          simp [hc] at hne
  · intro hsorted hbound
    rw [streamIDs_append] at hsorted hbound
    have hpre := pollLoop_offset_reach updateCb pre 0
    have hwrap : ∀ id ∈ streamIDs pre ++ streamIDs [it], wrapInt64 (id + 1) = id + 1 := by
      intro id hid
      have := hbound id hid
      exact wrapInt64_of_range _ (by omega) (by omega)
    have hmono : (Poll updateCb pre).offset ≤ (Poll updateCb (pre ++ [it])).offset := by
      unfold Poll
      rw [pollLoop_offset_append]
      cases hrun : (pollLoop updateCb 0 pre).result with
      | some err => exact le_refl _
      | none =>
          simp only []
          rcases pollLoop_offset_reach updateCb [it] (pollLoop updateCb 0 pre).offset with
            h | ⟨id, hid, h⟩
          · rw [h]
          · rw [h, hwrap id (List.mem_append_right _ hid)]
            rcases hpre with h0 | ⟨id0, hid0, h0⟩
            · rw [h0]
              have := hbound id (List.mem_append_right _ hid)
              omega
            · rw [h0, hwrap id0 (List.mem_append_left _ hid0)]
              have hlt : id0 < id := (List.pairwise_append.mp hsorted).2.2 id0 hid0 id hid
              omega
    refine ⟨hmono, ?_⟩
    intro updates hne hit hrun
    subst hit
    rw [hlast updates hne hrun]
    have hids : streamIDs [({ ctxErr := none, fetch := .ok updates } : Iteration)] =
        updates.map (fun u => u.UpdateID) := by
      simp [streamIDs]
    have hmem : (updates.getLast hne).UpdateID ∈
        streamIDs pre ++ streamIDs [({ ctxErr := none, fetch := .ok updates } : Iteration)] := by
      apply List.mem_append_right
      rw [hids]
      exact List.mem_map.mpr ⟨_, List.getLast_mem hne, rfl⟩
    rw [hwrap _ hmem, maxUpdateID_sorted updates hne (by
      rw [← hids]
      exact (List.pairwise_append.mp hsorted).2.1)]
    omega

/-- C6, amended, at a concrete run: the batches [5, 6] and [9] arrive in
increasing order; the offset goes 0, 7, 10, each time one plus the maximum of
the batch. -/
theorem C6_cursor_monotonicity_witness :
    ((streamIDs (successes [[upd 5, upd 6]] ++ [{ ctxErr := none, fetch := .ok [upd 9] }])).Sorted
        (· < ·) ∧
      (∀ id ∈ streamIDs (successes [[upd 5, upd 6]] ++
          [{ ctxErr := none, fetch := .ok [upd 9] }]), 0 ≤ id ∧ id < 2 ^ 63 - 1) ∧
      (Poll (fun _ => none) (successes [[upd 5, upd 6]])).result = none) ∧
    (Poll (fun _ => none) (successes [[upd 5, upd 6]])).offset ≤
      (Poll (fun _ => none) (successes [[upd 5, upd 6]] ++
        [{ ctxErr := none, fetch := .ok [upd 9] }])).offset ∧
    (Poll (fun _ => none) (successes [[upd 5, upd 6]] ++
        [{ ctxErr := none, fetch := .ok [upd 9] }])).offset = 1 + maxUpdateID [upd 9] ∧
    (Poll (fun _ => none) (successes [[upd 5, upd 6]] ++
        [{ ctxErr := none, fetch := .ok [upd 9] }])).offset = 10 :=
  have h := (C6_cursor_monotonicity (fun _ => none) (successes [[upd 5, upd 6]])
    { ctxErr := none, fetch := .ok [upd 9] }).2.2.2.2 (by decide) (by decide)
  ⟨⟨by decide, by decide, by decide⟩, h.1, h.2 [upd 9] (by decide) rfl (by decide),
    by decide⟩

/-! ### The poller: delivery over a run -/

/-- A run extended by further passes: unchanged when `Poll` had already
returned, otherwise continued by the further passes from the offset reached. -/
theorem pollLoop_append (updateCb : Update → Option GoError) (pre suf : List Iteration) :
    ∀ offset, pollLoop updateCb offset (pre ++ suf) =
      match (pollLoop updateCb offset pre).result with
      | some _ => pollLoop updateCb offset pre
      | none =>
          { offset := (pollLoop updateCb (pollLoop updateCb offset pre).offset suf).offset,
            trace := (pollLoop updateCb offset pre).trace ++
              (pollLoop updateCb (pollLoop updateCb offset pre).offset suf).trace,
            result := (pollLoop updateCb (pollLoop updateCb offset pre).offset suf).result } := by
  induction pre with
  | nil => intro offset; simp [pollLoop]
  | cons it rest ih =>
      intro offset
      rw [List.cons_append, pollLoop, pollLoop]
      cases hit : pollIteration updateCb offset it with
      | mk events ctl =>
          cases ctl with
          | stop err => rfl
          | next o =>
              simp only []
              rw [ih o]
              cases hres : (pollLoop updateCb o rest).result with
              | some err => simp [hres]
              | none => simp [List.append_assoc]

/-- A run of one pass that goes on. -/
theorem pollLoop_single (updateCb : Update → Option GoError) (offset offset' : Int)
    (it : Iteration) (h : (pollIteration updateCb offset it).2 = .next offset') :
    pollLoop updateCb offset [it] =
      { offset := offset', trace := (pollIteration updateCb offset it).1, result := none } := by
  rw [pollLoop]
  cases hit : pollIteration updateCb offset it with
  | mk events ctl =>
      rw [hit] at h
      simp only [] at h
      subst h
      simp [pollLoop]

/-- The updates dispatched by a pass do not depend on what the callbacks
return. -/
theorem pollIteration_launched (updateCb updateCb' : Update → Option GoError) (offset : Int)
    (it : Iteration) :
    launched (pollIteration updateCb offset it).1 =
      launched (pollIteration updateCb' offset it).1 := by
  unfold pollIteration
  split
  · rfl
  · split
    · split <;> rfl
    · simp only []
      split
      · rfl
      · simp only [launched, launched_goroutines]

/-- The offset, the result and the dispatched updates of a run do not depend on
what the callbacks return. -/
theorem pollLoop_callback (updateCb updateCb' : Update → Option GoError)
    (script : List Iteration) :
    ∀ offset,
      (pollLoop updateCb offset script).offset = (pollLoop updateCb' offset script).offset ∧
      (pollLoop updateCb offset script).result = (pollLoop updateCb' offset script).result ∧
      launched (pollLoop updateCb offset script).trace =
        launched (pollLoop updateCb' offset script).trace := by
  induction script with
  | nil => intro offset; exact ⟨rfl, rfl, rfl⟩
  | cons it rest ih =>
      intro offset
      have hc := pollIteration_control updateCb updateCb' offset it
      have hl := pollIteration_launched updateCb updateCb' offset it
      rw [pollLoop, pollLoop]
      cases h1 : pollIteration updateCb offset it with
      | mk ev1 c1 =>
          cases h2 : pollIteration updateCb' offset it with
          | mk ev2 c2 =>
              rw [h1, h2] at hc hl
              simp only [] at hc hl
              subst hc
              cases c1 with
              | stop err => exact ⟨rfl, rfl, hl⟩
              | next o =>
                  obtain ⟨ho, hr, hla⟩ := ih o
                  refine ⟨ho, hr, ?_⟩
                  simp only [launched_append, hl, hla]

/-- C8. Delivery without drops: in a run of `Poll` that has not returned, a
successful fetch returning a batch of n updates launches `updateCb` exactly
once for each update of the batch, with that update as argument, whatever the
callbacks return; `errorCb` is called exactly once, as `errorCb(err, false)`,
for each update whose callback returned an error `err`, and for no other; and
the results of the callbacks neither change the offset nor stop the loop: `Poll`
has not returned after the batch, and it goes on with the passes that follow,
from an offset that is the same for every callback. -/
theorem C8_delivery_without_drops (updateCb : Update → Option GoError) (pre : List Iteration)
    (updates : List Update) (hrun : (Poll updateCb pre).result = none) :
    launched (Poll updateCb (pre ++ [{ ctxErr := none, fetch := .ok updates }])).trace =
        launched (Poll updateCb pre).trace ++ updates ∧
      reported (Poll updateCb (pre ++ [{ ctxErr := none, fetch := .ok updates }])).trace =
        reported (Poll updateCb pre).trace ++
          updates.filterMap (fun u => (updateCb u).map (fun err => (err, false))) ∧
      (Poll updateCb (pre ++ [{ ctxErr := none, fetch := .ok updates }])).result = none ∧
      (∀ updateCb' : Update → Option GoError,
        (Poll updateCb' (pre ++ [{ ctxErr := none, fetch := .ok updates }])).offset =
            (Poll updateCb (pre ++ [{ ctxErr := none, fetch := .ok updates }])).offset ∧
          (Poll updateCb' (pre ++ [{ ctxErr := none, fetch := .ok updates }])).result = none ∧
          launched (Poll updateCb' (pre ++ [{ ctxErr := none, fetch := .ok updates }])).trace =
            launched (Poll updateCb pre).trace ++ updates) ∧
      (∀ rest : List Iteration,
        Poll updateCb (pre ++ { ctxErr := none, fetch := .ok updates } :: rest) =
          { offset := (pollLoop updateCb
              (Poll updateCb (pre ++ [{ ctxErr := none, fetch := .ok updates }])).offset
              rest).offset,
            trace := (Poll updateCb (pre ++ [{ ctxErr := none, fetch := .ok updates }])).trace ++
              (pollLoop updateCb
                (Poll updateCb (pre ++ [{ ctxErr := none, fetch := .ok updates }])).offset
                rest).trace,
            result := (pollLoop updateCb
              (Poll updateCb (pre ++ [{ ctxErr := none, fetch := .ok updates }])).offset
              rest).result }) := by
  obtain ⟨hl, hr, _, o', ho'⟩ :=
    pollIteration_delivery updateCb (Poll updateCb pre).offset updates
  have hsingle := pollLoop_single updateCb (Poll updateCb pre).offset o'
    { ctxErr := none, fetch := .ok updates } (ho' updateCb)
  have happ : Poll updateCb (pre ++ [{ ctxErr := none, fetch := .ok updates }]) =
      { offset := o',
        trace := (Poll updateCb pre).trace ++
          (pollIteration updateCb (Poll updateCb pre).offset
            { ctxErr := none, fetch := .ok updates }).1,
        result := none } := by
    unfold Poll at hrun hsingle ⊢
    rw [pollLoop_append, hrun]
    simp only []
    rw [hsingle]
  have hlaunched :
      launched (Poll updateCb (pre ++ [{ ctxErr := none, fetch := .ok updates }])).trace =
        launched (Poll updateCb pre).trace ++ updates := by
    rw [happ]
    simp only [launched_append, hl]
  have hresult :
      (Poll updateCb (pre ++ [{ ctxErr := none, fetch := .ok updates }])).result = none := by
    rw [happ]
  refine ⟨hlaunched, ?_, hresult, ?_, ?_⟩
  · rw [happ]
    simp only [reported_append, hr]
  · intro updateCb'
    obtain ⟨ho, hres, hla⟩ := pollLoop_callback updateCb' updateCb
      (pre ++ [{ ctxErr := none, fetch := .ok updates }]) 0
    refine ⟨ho, ?_, ?_⟩
    · unfold Poll at hresult ⊢
      rw [hres, hresult]
    · unfold Poll at hlaunched ⊢
      rw [hla, hlaunched]
  · intro rest
    have hsplit : pre ++ { ctxErr := none, fetch := .ok updates } :: rest =
        (pre ++ [{ ctxErr := none, fetch := .ok updates }]) ++ rest := by
      simp
    unfold Poll at hresult ⊢
    rw [hsplit, pollLoop_append, hresult]

/-- C8 at a concrete run: after the batch [5], the batch [6, 7, 8] is fetched and
the callback fails on update 7.  The callbacks launched over the run are those
of 5, 6, 7, 8, in this order; the only `errorCb` call is the one for update 7,
with `fromPoller = false`; `Poll` has not returned and its offset is 9, as it
is with a callback that never fails. -/
theorem C8_delivery_without_drops_witness :
    (Poll exCallback (successes [[upd 5]])).result = none ∧
      launched (Poll exCallback (successes [[upd 5]] ++
          [{ ctxErr := none, fetch := .ok [upd 6, upd 7, upd 8] }])).trace =
        launched (Poll exCallback (successes [[upd 5]])).trace ++ [upd 6, upd 7, upd 8] ∧
      launched (Poll exCallback (successes [[upd 5]] ++
          [{ ctxErr := none, fetch := .ok [upd 6, upd 7, upd 8] }])).trace =
        [upd 5, upd 6, upd 7, upd 8] ∧
      reported (Poll exCallback (successes [[upd 5]] ++
          [{ ctxErr := none, fetch := .ok [upd 6, upd 7, upd 8] }])).trace =
        [(.apiError 400 "Bad Request", false)] ∧
      (Poll exCallback (successes [[upd 5]] ++
          [{ ctxErr := none, fetch := .ok [upd 6, upd 7, upd 8] }])).result = none ∧
      (Poll (fun _ => none) (successes [[upd 5]] ++
          [{ ctxErr := none, fetch := .ok [upd 6, upd 7, upd 8] }])).offset =
        (Poll exCallback (successes [[upd 5]] ++
          [{ ctxErr := none, fetch := .ok [upd 6, upd 7, upd 8] }])).offset ∧
      (Poll exCallback (successes [[upd 5]] ++
          [{ ctxErr := none, fetch := .ok [upd 6, upd 7, upd 8] }])).offset = 9 :=
  have h := C8_delivery_without_drops exCallback (successes [[upd 5]])
    [upd 6, upd 7, upd 8] (by decide)
  ⟨by decide, h.1, by decide, by decide, h.2.2.1, (h.2.2.2.1 (fun _ => none)).1, by decide⟩

end LinkShield
